import Mathlib

/-!
Shallow embedding of `src/packages/core/src/providers/orcid.ts`, the ORCID
provider-configuration factory, together with proofs of its specification.

The file has one exported function, `ORCID(options)`, which returns a
provider descriptor: an object literal holding the provider's id, name,
type, OAuth endpoints, a userinfo fetch override, a profile-normalization
function, styling, and the caller's `options` stored under the `options`
key.  Optional JavaScript strings are embedded as `Option String`, and the
JavaScript `x || d` fallback on strings (which treats both `undefined` and
the empty string as absent) is embedded as `jsOr`.
-/

namespace Orcid

/-- The remote profile shape (`interface ORCIDProfile` in the source):
`sub` is required, all other fields are optional strings. -/
structure ORCIDProfile where
  sub : String
  name : Option String := none
  email : Option String := none
  given_name : Option String := none
  family_name : Option String := none
  picture : Option String := none
  url : Option String := none
deriving DecidableEq, Repr

/-- The normalized identity returned by the descriptor's `profile` method. -/
structure NormalizedProfile where
  id : String
  name : String
  email : Option String
  image : Option String
  url : String
deriving DecidableEq, Repr

/-- JavaScript `x || d` specialized to optional strings: `undefined` and the
empty string are falsy, any other string is truthy. -/
def jsOr : Option String → String → String
  | some s, d => if s = "" then d else s
  | none, d => d

/-- JavaScript `String.prototype.trim`: strip whitespace from both ends.
(Defined by structural recursion over the character list so that the
kernel can evaluate it on concrete strings.) -/
def jsTrim (s : String) : String :=
  String.mk (((s.data.dropWhile Char.isWhitespace).reverse.dropWhile Char.isWhitespace).reverse)

/-- The `profile` method of the returned descriptor (lines 91-99 of the
source): id copied from `sub`, name from `name` with a
given/family-name fallback, email and picture passed through, url from
`url` with a constructed canonical URL fallback. -/
def profile (p : ORCIDProfile) : NormalizedProfile :=
  { id := p.sub
    name := jsOr p.name (jsTrim ((jsOr p.given_name "Unknown") ++ " " ++ (jsOr p.family_name "")))
    email := p.email
    image := p.picture
    url := jsOr p.url ("https://orcid.org/" ++ p.sub) }

/-- Fixed request parameters of the authorization endpoint. -/
structure OAuthParams where
  scope : String
  response_type : String
deriving DecidableEq, Repr

/-- The `authorization` entry of the descriptor: endpoint URL plus params. -/
structure AuthorizationConfig where
  url : String
  params : OAuthParams
deriving DecidableEq, Repr

/-- The `userinfo` entry of the descriptor (the `request` override is
embedded separately as `userinfoRequest`). -/
structure UserinfoConfig where
  url : String
deriving DecidableEq, Repr

/-- Display styling hints. -/
structure ProviderStyle where
  bg : String
  text : String
deriving DecidableEq, Repr

/-- Modelled from the spec: the caller-supplied overrides of the
`authorization` entry (`OAuthUserConfig` is declared in `./index.js`,
which is outside the sources; the spec says callers "may override any
default field (endpoint URLs, scopes, styling)"). -/
structure AuthorizationOverride where
  url : Option String := none
  scope : Option String := none
  response_type : Option String := none
deriving DecidableEq, Repr

/-- Modelled from the spec: the caller `options` record
(`OAuthUserConfig`, declared in `./index.js`, outside the sources).  It
supplies the client credentials and may override any default field of the
descriptor; the protocol `type` is not overridable. -/
structure OAuthUserConfig where
  clientId : Option String := none
  clientSecret : Option String := none
  id : Option String := none
  name : Option String := none
  authorization : AuthorizationOverride := {}
  token : Option String := none
  userinfoUrl : Option String := none
  style : Option ProviderStyle := none
deriving DecidableEq, Repr

/-- The provider descriptor (`OAuthConfig` shape, restricted to the fields
the source file sets): defaults plus the caller's `options` stored under
the `options` key. -/
structure OAuthConfig where
  id : String
  name : String
  type : String
  authorization : AuthorizationConfig
  token : String
  userinfo : UserinfoConfig
  clientId : Option String
  clientSecret : Option String
  style : ProviderStyle
  options : OAuthUserConfig
deriving DecidableEq, Repr

/-- The exported factory (lines 67-103 of the source): a pure object
literal.  It performs no validation and no network call; the caller's
`options` are stored under the `options` key, to be merged over the
defaults by the consuming engine. -/
def ORCID (options : OAuthUserConfig) : OAuthConfig :=
  { id := "orcid"
    name := "ORCID"
    type := "oauth"
    authorization :=
      { url := "https://orcid.org/oauth/authorize"
        params :=
          { scope := "openid email profile"
            response_type := "code" } }
    token := "https://orcid.org/oauth/token"
    userinfo := { url := "https://orcid.org/oauth/userinfo" }
    clientId := none
    clientSecret := none
    style := { bg := "#A6CE39", text := "#fff" }
    options := options }

/-- Modelled from the spec: the consuming engine's merge of the caller
`options` over the descriptor's defaults ("Merge caller `options` over a
fixed set of defaults"; "merged last so callers can override any
default").  The merging code lives in the host framework, outside the
sources, so it is taken from the spec's words: every field present in
`options` replaces the corresponding default. -/
def mergeOptions (c : OAuthConfig) : OAuthConfig :=
  let o := c.options
  { c with
    id := o.id.getD c.id
    name := o.name.getD c.name
    authorization :=
      { url := o.authorization.url.getD c.authorization.url
        params :=
          { scope := o.authorization.scope.getD c.authorization.params.scope
            response_type :=
              o.authorization.response_type.getD c.authorization.params.response_type } }
    token := o.token.getD c.token
    userinfo := { url := o.userinfoUrl.getD c.userinfo.url }
    clientId := o.clientId
    clientSecret := o.clientSecret
    style := o.style.getD c.style }

/-- The spec's `build(options)`: the effective descriptor seen by the
consuming engine, the factory's defaults with the caller's overrides
merged over them. -/
def build (options : OAuthUserConfig) : OAuthConfig :=
  mergeOptions (ORCID options)

/-- An HTTP request as issued by the userinfo fetch override. -/
structure HttpRequest where
  method : String
  url : String
  headers : List (String × String)
deriving DecidableEq, Repr

/-- The token set handed to the userinfo fetch override. -/
structure TokenSet where
  access_token : String
deriving DecidableEq, Repr

/-- The outcome of a `fetch` call under the standard semantics: either the
promise rejects with a network error, or it resolves to a response with a
status and a body; the body is `some j` when it parses as JSON (of
parsed shape `α`, which the code never inspects) and `none` otherwise. -/
inductive FetchOutcome (α : Type) where
  | networkError (msg : String)
  | response (status : Nat) (body : Option α)
deriving DecidableEq, Repr

/-- A settled JavaScript promise: resolved with a value or rejected. -/
inductive JsOutcome (α : Type) where
  | resolved (v : α)
  | rejected (err : String)
deriving DecidableEq, Repr

/-- The rejection produced by `res.json()` on a body that is not JSON. -/
def jsonParseFailure : String := "SyntaxError: Unexpected token"

/-- The GET request issued by the userinfo fetch override: the given URL
with an Authorization bearer header built from the access token. -/
def bearerGet (url : String) (accessToken : String) : HttpRequest :=
  { method := "GET"
    url := url
    headers := [("Authorization", "Bearer " ++ accessToken)] }

/-- The `userinfo.request` override (lines 85-89 of the source): a single
`fetch` of `provider.userinfo.url` with a bearer Authorization header,
followed by `res.json()`.  `world` is the ambient network; the second
component of the result is the list of requests issued.  The status of the
response is never inspected; a network error or a non-JSON body is the
only way the operation rejects, and the rejection is not caught. -/
def userinfoRequest {α : Type} (world : HttpRequest → FetchOutcome α)
    (tokens : TokenSet) (provider : OAuthConfig) : JsOutcome α × List HttpRequest :=
  let req : HttpRequest := bearerGet provider.userinfo.url tokens.access_token
  match world req with
  | FetchOutcome.networkError e => (JsOutcome.rejected e, [req])
  | FetchOutcome.response _ none => (JsOutcome.rejected jsonParseFailure, [req])
  | FetchOutcome.response _ (some j) => (JsOutcome.resolved j, [req])

end Orcid

namespace Orcid

/-- C1: for every options record containing a client id and client secret,
`build options` is a descriptor with id `"orcid"`, name `"ORCID"`, type
`"oauth"`, authorization scope `"openid email profile"` and response type
`"code"`, provided the caller does not override those fields. -/
theorem build_defaults (o : OAuthUserConfig)
    (_hcid : o.clientId ≠ none) (_hsec : o.clientSecret ≠ none)
    (hid : o.id = none) (hname : o.name = none)
    (hscope : o.authorization.scope = none)
    (hrt : o.authorization.response_type = none) :
    (build o).id = "orcid" ∧ (build o).name = "ORCID" ∧ (build o).type = "oauth" ∧
    (build o).authorization.params.scope = "openid email profile" ∧
    (build o).authorization.params.response_type = "code" := by
  refine ⟨?_, ?_, rfl, ?_, ?_⟩ <;>
    simp [build, mergeOptions, ORCID, hid, hname, hscope, hrt]

/-- Witness for `build_defaults` at concrete credentials. -/
theorem build_defaults_witness :
    (build { clientId := some "APP-123", clientSecret := some "top" }).id = "orcid" ∧
    (build { clientId := some "APP-123", clientSecret := some "top" }).name = "ORCID" ∧
    (build { clientId := some "APP-123", clientSecret := some "top" }).type = "oauth" ∧
    (build { clientId := some "APP-123", clientSecret := some "top" }).authorization.params.scope
      = "openid email profile" ∧
    (build { clientId := some "APP-123", clientSecret := some "top" }).authorization.params.response_type
      = "code" :=
  build_defaults { clientId := some "APP-123", clientSecret := some "top" }
    (by decide) (by decide) rfl rfl rfl rfl

/-- C2: every field the caller supplies in `options` replaces the built-in
default in the descriptor `build options`; in particular a custom
authorization url replaces the default ORCID endpoint, and the caller's
credentials are carried through. -/
theorem build_overrides (o : OAuthUserConfig) :
    (∀ v, o.id = some v → (build o).id = v) ∧
    (∀ v, o.name = some v → (build o).name = v) ∧
    (∀ v, o.authorization.url = some v → (build o).authorization.url = v) ∧
    (∀ v, o.authorization.scope = some v → (build o).authorization.params.scope = v) ∧
    (∀ v, o.authorization.response_type = some v →
      (build o).authorization.params.response_type = v) ∧
    (∀ v, o.token = some v → (build o).token = v) ∧
    (∀ v, o.userinfoUrl = some v → (build o).userinfo.url = v) ∧
    (∀ v, o.style = some v → (build o).style = v) ∧
    (build o).clientId = o.clientId ∧ (build o).clientSecret = o.clientSecret := by
  refine ⟨?_, ?_, ?_, ?_, ?_, ?_, ?_, ?_, rfl, rfl⟩ <;>
    intro v hv <;> simp [build, mergeOptions, ORCID, hv]

/-- Witness for `build_overrides`: a custom authorization url wins. -/
theorem build_overrides_witness :
    (build { authorization := { url := some "https://example.org/auth" } }).authorization.url
      = "https://example.org/auth" :=
  (build_overrides { authorization := { url := some "https://example.org/auth" } }).2.2.1
    "https://example.org/auth" rfl

end Orcid

namespace Orcid

/-- C3: normalizing the profile with subject `"0000-0001"` and full name
`"Ada Lovelace"` (no other fields) gives id `"0000-0001"`, name
`"Ada Lovelace"` and url `"https://orcid.org/0000-0001"`; in general the
id is copied from `sub`, and a present (nonempty) full name is used as the
name. -/
theorem profile_full_name :
    profile { sub := "0000-0001", name := some "Ada Lovelace" }
      = { id := "0000-0001", name := "Ada Lovelace", email := none, image := none,
          url := "https://orcid.org/0000-0001" } ∧
    (∀ p : ORCIDProfile, (profile p).id = p.sub) ∧
    (∀ (p : ORCIDProfile) (s : String), p.name = some s → s ≠ "" → (profile p).name = s) := by
  refine ⟨by decide, fun p => rfl, fun p s hs hne => ?_⟩
  simp [profile, jsOr, hs, hne]

/-- Witness for `profile_full_name` at a concrete profile. -/
theorem profile_full_name_witness :
    (profile { sub := "0000-0009", name := some "Alan Turing" }).name = "Alan Turing" :=
  profile_full_name.2.2 { sub := "0000-0009", name := some "Alan Turing" } "Alan Turing"
    rfl (by decide)

/-- C4: with no full name and both a (nonempty) given and family name, the
produced name is the given name, a space, and the family name, trimmed. -/
theorem profile_given_family (p : ORCIDProfile) (g f : String)
    (hname : p.name = none) (hg : p.given_name = some g) (hf : p.family_name = some f)
    (hgne : g ≠ "") (hfne : f ≠ "") :
    (profile p).name = jsTrim (g ++ " " ++ f) := by
  simp [profile, jsOr, hname, hg, hf, hgne, hfne]

/-- Witness for `profile_given_family`: Grace + Hopper gives
`"Grace Hopper"`. -/
theorem profile_given_family_witness :
    (profile { sub := "0000-0002", given_name := some "Grace",
               family_name := some "Hopper" }).name = "Grace Hopper" := by
  rw [profile_given_family
    { sub := "0000-0002", given_name := some "Grace", family_name := some "Hopper" }
    "Grace" "Hopper" rfl rfl rfl (by decide) (by decide)]
  decide

/-- C5: with full name, given name and family name all absent, the produced
name is the literal `"Unknown"` (the trailing space is trimmed away). -/
theorem profile_name_unknown (p : ORCIDProfile)
    (hname : p.name = none) (hg : p.given_name = none) (hf : p.family_name = none) :
    (profile p).name = "Unknown" := by
  simp only [profile, jsOr, hname, hg, hf]
  decide

/-- Witness for `profile_name_unknown` at a concrete profile. -/
theorem profile_name_unknown_witness :
    (profile { sub := "0000-0003" }).name = "Unknown" :=
  profile_name_unknown { sub := "0000-0003" } rfl rfl rfl

/-- C6: the produced url is the profile's own (nonempty) `url` field when
present, and otherwise the constructed canonical URL
`"https://orcid.org/" ++ sub`; an explicitly supplied profile URL
overrides the constructed default. -/
theorem profile_url_choice (p : ORCIDProfile) :
    (∀ u, p.url = some u → u ≠ "" → (profile p).url = u) ∧
    (p.url = none → (profile p).url = "https://orcid.org/" ++ p.sub) := by
  constructor
  · intro u hu hne
    simp [profile, jsOr, hu, hne]
  · intro hu
    simp [profile, jsOr, hu]

/-- Witness for `profile_url_choice`: an explicit URL wins. -/
theorem profile_url_choice_witness :
    (profile { sub := "0000-0004", url := some "https://example.org/x" }).url
      = "https://example.org/x" :=
  (profile_url_choice { sub := "0000-0004", url := some "https://example.org/x" }).1
    "https://example.org/x" rfl (by decide)

/-- C9: a full name that is present but empty falls through to the
given/family-name fallback exactly as if it were absent. -/
theorem profile_empty_full_name (p : ORCIDProfile) :
    (profile { p with name := some "" }).name = (profile { p with name := none }).name := by
  simp [profile, jsOr]

/-- C10: a profile URL that is present but empty is treated as absent: the
produced url is the constructed canonical URL, not the empty string. -/
theorem profile_empty_url (p : ORCIDProfile) (hu : p.url = some "") :
    (profile p).url = "https://orcid.org/" ++ p.sub := by
  simp [profile, jsOr, hu]

/-- Witness for `profile_empty_url` at a concrete profile. -/
theorem profile_empty_url_witness :
    (profile { sub := "0000-0005", url := some "" }).url = "https://orcid.org/0000-0005" := by
  rw [profile_empty_url { sub := "0000-0005", url := some "" } rfl]
  decide

end Orcid

namespace Orcid

/-- C7 counterexample: a non-2xx response whose body is valid JSON does
NOT propagate as a rejected operation — the userinfo request resolves
with the parsed error body, because the response status is never
inspected.  Concretely, with a network returning status 404 and JSON body
`"not-found-body"`, the operation resolves. -/
theorem userinfo_request_non2xx_resolves :
    (userinfoRequest (fun _ => FetchOutcome.response 404 (some "not-found-body"))
        { access_token := "tok" } (build {})).1
      = JsOutcome.resolved "not-found-body" := rfl

/-- C7 (amended): the userinfo request issues exactly one GET to the
configured user-info URL with an `Authorization: Bearer <access_token>`
header and performs no retries; a network error or a non-JSON body
propagates unhandled as a rejection; a response whose body parses as JSON
resolves with that body unmodified, regardless of the HTTP status. -/
theorem userinfo_request_behavior {α : Type} (world : HttpRequest → FetchOutcome α)
    (tokens : TokenSet) (provider : OAuthConfig) :
    (userinfoRequest world tokens provider).2
      = [bearerGet provider.userinfo.url tokens.access_token] ∧
    (∀ e, world (bearerGet provider.userinfo.url tokens.access_token)
        = FetchOutcome.networkError e →
      (userinfoRequest world tokens provider).1 = JsOutcome.rejected e) ∧
    (∀ s, world (bearerGet provider.userinfo.url tokens.access_token)
        = FetchOutcome.response s none →
      (userinfoRequest world tokens provider).1 = JsOutcome.rejected jsonParseFailure) ∧
    (∀ s j, world (bearerGet provider.userinfo.url tokens.access_token)
        = FetchOutcome.response s (some j) →
      (userinfoRequest world tokens provider).1 = JsOutcome.resolved j) := by
  refine ⟨?_, ?_, ?_, ?_⟩
  · simp only [userinfoRequest]
    cases world (bearerGet provider.userinfo.url tokens.access_token) with
    | networkError e => rfl
    | response s body => cases body <;> rfl
  · intro e he
    simp [userinfoRequest, he]
  · intro s hs
    simp [userinfoRequest, hs]
  · intro s j hj
    simp [userinfoRequest, hj]

/-- Witness for `userinfo_request_behavior` at a concrete network: one
bearer GET to the default userinfo URL, resolving with the JSON body. -/
theorem userinfo_request_behavior_witness :
    (userinfoRequest (fun _ => FetchOutcome.response 200 (some 42))
        { access_token := "tok" } (build {})).2
      = [bearerGet "https://orcid.org/oauth/userinfo" "tok"] ∧
    (userinfoRequest (fun _ => FetchOutcome.response 200 (some 42))
        { access_token := "tok" } (build {})).1
      = JsOutcome.resolved 42 :=
  ⟨(userinfo_request_behavior (fun _ => FetchOutcome.response 200 (some 42))
      { access_token := "tok" } (build {})).1,
   (userinfo_request_behavior (fun _ => FetchOutcome.response 200 (some 42))
      { access_token := "tok" } (build {})).2.2.2 200 42 rfl⟩

/-- C8: construction is total and performs no validation: for every options
record — malformed ones with no client id included — `ORCID options`
returns a descriptor; the caller's options are only stored, never
inspected, so the rest of the descriptor does not depend on them
(replacing the stored options turns `ORCID o` into `ORCID o2`), and the
descriptor's id is always `"orcid"`. -/
theorem orcid_total (o o2 : OAuthUserConfig) :
    (ORCID o).options = o ∧ (ORCID o).id = "orcid" ∧
    { ORCID o with options := o2 } = ORCID o2 :=
  ⟨rfl, rfl, rfl⟩

end Orcid
